import Mathlib

/-!
Web Activity Logger — verification of the interaction-capture core.

Shallow embedding of the browser-extension side of the repository:
the content script (`extension/content.js`) that turns DOM interactions
into log entries, the background relay that buffers them, and the
timeline deduplication stage of the session engine.

DOM elements are modelled as records of the properties the content
script reads; strings are Lean strings (JS strings as character
sequences); the mutable captured-events buffer and the page-side
polling buffer are explicit state passed in and out.
-/

set_option autoImplicit false

namespace WebLogger

/-- Model of a DOM element, holding exactly the properties the content
script reads: `tagName`, `id`, `className`, `type`, `value`,
`innerText`, the attribute map, and the sibling context (the tag names
of the parent's children, with this element's position among them;
`none` when the element has no parent). -/
structure Element where
  tagName : String
  id : String
  className : String
  typ : String
  value : String
  innerText : String
  attrs : List (String × String)
  parentChildrenTags : Option (List String)
  indexInParent : Nat
deriving Repr, DecidableEq

/-- The constant MAX_INNER_TEXT_LENGTH from content.js. -/
def MAX_INNER_TEXT_LENGTH : Nat := 100

/-- JS `text.substring(0, n)`: the first `n` characters. -/
def substringTo (s : String) (n : Nat) : String := ⟨s.data.take n⟩

/-- JS `tagName.toLowerCase()`, character by character. -/
def toLowerCase (s : String) : String := ⟨s.data.map Char.toLower⟩

/-- Splits a character sequence into its maximal non-whitespace runs;
`acc` holds the characters of the current run in reverse. -/
def splitClassesAux : List Char → List Char → List String
  | [], acc => if acc = [] then [] else [⟨acc.reverse⟩]
  | c :: cs, acc =>
    if c.isWhitespace then
      (if acc = [] then [] else [⟨acc.reverse⟩]) ++ splitClassesAux cs []
    else splitClassesAux cs (c :: acc)

/-- JS `className.trim().split(/\s+/).filter(c => c)`: the whitespace
separated class tokens, empties dropped — exactly the maximal
non-whitespace runs of the class string. -/
def splitClasses (s : String) : List String :=
  splitClassesAux s.data []

/-- The nth-child fallback index computed by `generateSelector`:
with no parent the initial value 1 survives; with a parent it is
`sameTagSiblings.indexOf(element) + 1`, i.e. one plus the number of
same-tag children strictly before this element. -/
def nthChildIndex (e : Element) : Nat :=
  match e.parentChildrenTags with
  | none => 1
  | some tags => ((tags.take e.indexInParent).filter (fun t => t = e.tagName)).length + 1

/-- Function generateSelector from content.js: `null` for a tagless node,
else ID selector, else tag.classes, else tag:nth-child(n). -/
def generateSelector (e : Element) : Option String :=
  if e.tagName = "" then none
  else
    let tagName := toLowerCase e.tagName
    if e.id ≠ "" then some ("#" ++ e.id)
    else
      let classes := splitClasses e.className
      if classes ≠ [] then some (tagName ++ "." ++ String.intercalate "." classes)
      else some (tagName ++ ":nth-child(" ++ toString (nthChildIndex e) ++ ")")

/-- The attribute whitelist of `getAttributes`. -/
def relevantAttrs : List String :=
  ["id", "class", "name", "type", "href", "src", "value", "placeholder", "data-testid"]

/-- Function getAttributes from content.js: keep exactly the whitelisted
attributes the element actually has. -/
def getAttributes (e : Element) : List (String × String) :=
  relevantAttrs.filterMap (fun a => (e.attrs.lookup a).map (fun v => (a, v)))

/-- Function getInnerText from content.js: the element text, truncated to
`MAX_INNER_TEXT_LENGTH` characters with "..." appended when longer. -/
def getInnerText (e : Element) : String :=
  let text := e.innerText
  if text.length > MAX_INNER_TEXT_LENGTH then
    substringTo text MAX_INNER_TEXT_LENGTH ++ "..."
  else text

/-- Function getInputValue from content.js: `null` for password fields, else
`element.value || null` (the empty string is falsy, hence `null`). -/
def getInputValue (e : Element) : Option String :=
  if e.typ = "password" then none
  else if e.value = "" then none else some e.value

/-- A form field as seen by `getFormValues`: its `name` attribute,
its `type`, and its current value. -/
structure FormField where
  name : String
  typ : String
  value : String
deriving Repr, DecidableEq

/-- A form: the form element itself plus its submittable fields in
document order. -/
structure Form where
  element : Element
  fields : List FormField
deriving Repr, DecidableEq

/-- The redaction marker of `getFormValues`. -/
def REDACTED : String := "[REDACTED]"

/-- JS `new FormData(form).entries()`: `(name, value)` pairs of the named
fields, in document order. -/
def formDataEntries (form : Form) : List (String × String) :=
  (form.fields.filter (fun f => f.name ≠ "")).map (fun f => (f.name, f.value))

/-- JS `form.querySelector('[name="..."]')`: the first field in document
order carrying that name. -/
def querySelectorByName (form : Form) (name : String) : Option FormField :=
  form.fields.find? (fun f => f.name = name)

/-- JS object assignment `values[name] = v`: replace the value at an
existing key in place, else append the key. -/
def setKey (values : List (String × String)) (name v : String) : List (String × String) :=
  if values.any (fun p => p.1 = name) then
    values.map (fun p => if p.1 = name then (name, v) else p)
  else values ++ [(name, v)]

/-- Function getFormValues from content.js: for each FormData entry, look up
the first field with that name by selector; if that field is
password-typed store the redaction marker, else store the entry
value. -/
def getFormValues (form : Form) : List (String × String) :=
  (formDataEntries form).foldl
    (fun values nv =>
      match querySelectorByName form nv.1 with
      | some field =>
        if field.typ = "password" then setKey values nv.1 REDACTED
        else setKey values nv.1 nv.2
      | none => setKey values nv.1 nv.2)
    []

/-- An interaction log entry, as built by `createLogEntry`. The
`value` and `formValues` fields model JS object keys: the outer
`Option` is key presence (`none` = key absent), so `some none` is a
present key holding `null`. -/
structure LogEntry where
  timestamp : Nat
  typ : String
  event : String
  selector : Option String
  tagName : String
  attributes : List (String × String)
  value : Option (Option String)
  innerText : String
  url : String
  formValues : Option (List (String × String))
deriving Repr, DecidableEq

/-- The `extraData` argument of `createLogEntry`: the keys a handler
may spread over the base entry. -/
structure ExtraData where
  value : Option (Option String) := none
  formValues : Option (List (String × String)) := none
deriving Repr, DecidableEq

/-- Function createLogEntry from content.js. The base object always carries
`value: null`; the spread of `extraData` overrides `value` when the
handler supplied one and adds `formValues` when supplied. -/
def createLogEntry (eventType : String) (e : Element) (extra : ExtraData)
    (timestamp : Nat) (url : String) : LogEntry :=
  { timestamp := timestamp
    typ := "interaction"
    event := eventType
    selector := generateSelector e
    tagName := e.tagName
    attributes := getAttributes e
    value := match extra.value with
      | some v => some v
      | none => some none
    innerText := getInnerText e
    url := url
    formValues := extra.formValues }

/-- Handler handleClick: log entry with no extra data. -/
def handleClick (e : Element) (timestamp : Nat) (url : String) : LogEntry :=
  createLogEntry "click" e {} timestamp url

/-- Handler handleInput: log entry with `value: getInputValue(element)`. -/
def handleInput (e : Element) (timestamp : Nat) (url : String) : LogEntry :=
  createLogEntry "input" e { value := some (getInputValue e) } timestamp url

/-- Handler handleChange: log entry with `value: getInputValue(element)`. -/
def handleChange (e : Element) (timestamp : Nat) (url : String) : LogEntry :=
  createLogEntry "change" e { value := some (getInputValue e) } timestamp url

/-- Handler handleSubmit: log entry for the form element with
`formValues: getFormValues(form)`. -/
def handleSubmit (form : Form) (timestamp : Nat) (url : String) : LogEntry :=
  createLogEntry "submit" form.element { formValues := some (getFormValues form) }
    timestamp url

/-- The fixed console-line marker prepended by `sendEvent`. -/
def WEB_LOGGER_EVENT_MARKER : String := "WEB_LOGGER_EVENT:"

/-- The observable effects of one `sendEvent` call: whether the
runtime message reached the background (and with which entry), the
console lines emitted as (marker, entry) pairs, and the page polling
buffer afterwards. -/
structure SendResult where
  runtimeSent : Option LogEntry
  consoleEvents : List (String × LogEntry)
  buffer : List LogEntry
deriving Repr, DecidableEq

/-- Function sendEvent from content.js, with the environment's channel
failures made explicit: `runtimeThrows` models
`chrome.runtime.sendMessage` throwing (extension context
invalidated), `bufferThrows` models the window-buffer push throwing
(content script isolation). Both calls sit in try/catch in the
source, so neither failure escapes: the result is always `.ok`. The
console line is emitted unconditionally with the fixed marker. -/
def sendEvent (entry : LogEntry) (runtimeThrows bufferThrows : Bool)
    (buffer : List LogEntry) : Except String SendResult :=
  Except.ok
    { runtimeSent := if runtimeThrows then none else some entry
      consoleEvents := [(WEB_LOGGER_EVENT_MARKER, entry)]
      buffer := if bufferThrows then buffer else buffer ++ [entry] }

/-- A response object sent back by the background relay listeners:
either an `events` payload, a `success` flag, or both absent. -/
structure RelayResponse where
  events : Option (List LogEntry)
  success : Option Bool
deriving Repr, DecidableEq

/-- The `chrome.runtime.onMessage` listener of the background worker:
an `interaction` message pushes its data onto `capturedEvents`; any
other message leaves the buffer alone. -/
def handleRuntimeMessage (msgType : String) (data : LogEntry)
    (capturedEvents : List LogEntry) : List LogEntry :=
  if msgType = "interaction" then capturedEvents ++ [data] else capturedEvents

/-- The `chrome.runtime.onMessageExternal` listener: `getEvents`
responds with the buffer and leaves it unchanged, `clearEvents`
empties it, `getAndClearEvents` responds with a copy and empties it;
anything else is ignored. Returns (response, buffer afterwards). -/
def handleExternalMessage (msgType : String) (capturedEvents : List LogEntry) :
    Option RelayResponse × List LogEntry :=
  if msgType = "getEvents" then
    (some { events := some capturedEvents, success := none }, capturedEvents)
  else if msgType = "clearEvents" then
    (some { events := none, success := some true }, [])
  else if msgType = "getAndClearEvents" then
    (some { events := some capturedEvents, success := none }, [])
  else (none, capturedEvents)

/-- The `port.onMessage` listener installed by `onConnect` for the
`web-logger` port: same protocol as the external-message listener. -/
def handlePortMessage (msgType : String) (capturedEvents : List LogEntry) :
    Option RelayResponse × List LogEntry :=
  if msgType = "getEvents" then
    (some { events := some capturedEvents, success := none }, capturedEvents)
  else if msgType = "clearEvents" then
    (some { events := none, success := some true }, [])
  else if msgType = "getAndClearEvents" then
    (some { events := some capturedEvents, success := none }, [])
  else (none, capturedEvents)

/-- The stable content key used for redundant-channel collapsing:
(timestamp, selector, eventKind). -/
def contentKey (e : LogEntry) : Nat × Option String × String :=
  (e.timestamp, e.selector, e.event)

/-- Whether the timeline already holds an entry with the given key. -/
def hasKey (timeline : List LogEntry) (k : Nat × Option String × String) : Bool :=
  timeline.any (fun x => decide (contentKey x = k))

/-- Modelled from the spec: the Session Timeline's redundant-channel
collapsing stage (the Python session-timeline component is not among
the sources). Appending an interaction event whose content key
(timestamp + selector + eventKind) is already present is a no-op;
otherwise the event is appended in arrival order. -/
def timelineAppend (timeline : List LogEntry) (e : LogEntry) : List LogEntry :=
  if hasKey timeline (contentKey e) then timeline else timeline ++ [e]

/-- Number of timeline entries whose content key is `k`. -/
def countKey (k : Nat × Option String × String) (timeline : List LogEntry) : Nat :=
  timeline.countP (fun x => decide (contentKey x = k))

/-! ## Concrete fixtures used by witnesses and counterexamples -/

/-- A button element with an id, classes, and sibling context. -/
def elemBtn : Element :=
  { tagName := "BUTTON", id := "go", className := "primary big", typ := "submit"
    value := "", innerText := "Go", attrs := [("id", "go"), ("class", "primary big")]
    parentChildrenTags := some ["DIV", "BUTTON", "BUTTON"], indexInParent := 2 }

/-- A plain div with neither id nor classes, third child of its parent
and second among the same-tag siblings. -/
def elemPlainDiv : Element :=
  { tagName := "DIV", id := "", className := "", typ := "", value := ""
    innerText := "hello", attrs := []
    parentChildrenTags := some ["DIV", "SPAN", "DIV"], indexInParent := 2 }

/-- A password input holding a secret. -/
def elemPassword : Element :=
  { tagName := "INPUT", id := "pw", className := "", typ := "password"
    value := "hunter2", innerText := "", attrs := [("type", "password")]
    parentChildrenTags := none, indexInParent := 0 }

/-- A non-password text input whose value is the empty string. -/
def elemEmptyText : Element :=
  { tagName := "INPUT", id := "q", className := "", typ := "text"
    value := "", innerText := "", attrs := [("type", "text")]
    parentChildrenTags := none, indexInParent := 0 }

/-- A bare form element. -/
def elemForm : Element :=
  { tagName := "FORM", id := "login", className := "", typ := "", value := ""
    innerText := "", attrs := [("id", "login")]
    parentChildrenTags := none, indexInParent := 0 }

/-- A form whose password field shares its `name` with an earlier
text field: the duplicate-name scenario of the redaction claim. -/
def leakyForm : Form :=
  { element := elemForm
    fields := [{ name := "user", typ := "text", value := "alice" },
               { name := "user", typ := "password", value := "hunter2" }] }

/-- A one-field form with an ordinary text field. -/
def simpleForm : Form :=
  { element := elemForm
    fields := [{ name := "q", typ := "text", value := "hello" }] }

/-- A click log entry as it would be delivered by one channel. -/
def entryClickA : LogEntry :=
  { timestamp := 5, typ := "interaction", event := "click", selector := some "#go"
    tagName := "BUTTON", attributes := [("id", "go")], value := some none
    innerText := "Go", url := "https://example.com/", formValues := none }

/-- The same logical click as delivered by a second channel: an
identical record, hence an identical content key. -/
def entryClickB : LogEntry :=
  { timestamp := 5, typ := "interaction", event := "click", selector := some "#go"
    tagName := "BUTTON", attributes := [("id", "go")], value := some none
    innerText := "Go", url := "https://example.com/", formValues := none }

/-- Text of exactly the maximum length. -/
def exactText : String := ⟨List.replicate 100 'a'⟩

/-- Text one character over the maximum length. -/
def longText : String := ⟨List.replicate 101 'a'⟩

/-- An element whose text has exactly the maximum length. -/
def elemExactText : Element :=
  { tagName := "P", id := "", className := "", typ := "", value := ""
    innerText := exactText, attrs := [], parentChildrenTags := none, indexInParent := 0 }

/-- An element whose text is one character over the maximum length. -/
def elemLongText : Element :=
  { tagName := "P", id := "", className := "", typ := "", value := ""
    innerText := longText, attrs := [], parentChildrenTags := none, indexInParent := 0 }

/-! ## Theorems -/

/-- C5: for every element with a non-empty id, the generated selector
is exactly "#" followed by the id — the class list, the tag name and
the sibling position never enter the result. -/
theorem generateSelector_id (e : Element) (ht : e.tagName ≠ "") (hid : e.id ≠ "") :
    generateSelector e = some ("#" ++ e.id) := by
  simp [generateSelector, ht, hid]

/-- Witness for C5 at a concrete element carrying classes and a
sibling position, which the id selector ignores. -/
theorem generateSelector_id_witness :
    elemBtn.tagName ≠ "" ∧ elemBtn.id ≠ "" ∧
    generateSelector elemBtn = some ("#" ++ elemBtn.id) :=
  ⟨by decide, by decide, generateSelector_id elemBtn (by decide) (by decide)⟩

/-- C6: for every element with an empty id and an empty class list,
the selector is `tag:nth-child(n)` with the tag lowercased and `n`
the 1-based position among the same-tag children of the parent
(one plus the number of earlier same-tag children), and `n = 1`
when the element has no parent. -/
theorem generateSelector_nth_child (e : Element) (ht : e.tagName ≠ "")
    (hid : e.id = "") (hcl : splitClasses e.className = []) :
    generateSelector e
      = some (toLowerCase e.tagName ++ ":nth-child(" ++ toString (nthChildIndex e) ++ ")") ∧
    (∀ tags, e.parentChildrenTags = some tags →
      nthChildIndex e
        = ((tags.take e.indexInParent).filter (fun t => t = e.tagName)).length + 1) ∧
    (e.parentChildrenTags = none → nthChildIndex e = 1) := by
  refine ⟨by simp [generateSelector, ht, hid, hcl], ?_, ?_⟩
  · intro tags htags
    simp [nthChildIndex, htags]
  · intro hnone
    simp [nthChildIndex, hnone]

/-- Witness for C6 at a concrete class-less element: second DIV among
its parent's children, so nth-child(2). -/
theorem generateSelector_nth_child_witness :
    elemPlainDiv.tagName ≠ "" ∧ elemPlainDiv.id = "" ∧
    splitClasses elemPlainDiv.className = [] ∧
    generateSelector elemPlainDiv = some "div:nth-child(2)" := by
  refine ⟨by decide, by decide, by decide, ?_⟩
  have h := generateSelector_nth_child elemPlainDiv (by decide) (by decide) (by decide)
  have h2 : toLowerCase elemPlainDiv.tagName
      ++ ":nth-child(" ++ toString (nthChildIndex elemPlainDiv) ++ ")"
      = "div:nth-child(2)" := by decide
  exact h2 ▸ h.1

/-- C3: for every input or change event on a password-typed field,
the produced record carries a present `value` key holding null,
whatever the field's contents. -/
theorem password_input_value_null (e : Element) (ts : Nat) (url : String)
    (hp : e.typ = "password") :
    (handleInput e ts url).value = some none ∧
    (handleChange e ts url).value = some none := by
  simp [handleInput, handleChange, createLogEntry, getInputValue, hp]

/-- Witness for C3 at a password input holding "hunter2". -/
theorem password_input_value_null_witness :
    elemPassword.typ = "password" ∧ elemPassword.value = "hunter2" ∧
    (handleInput elemPassword 3 "https://example.com/").value = some none ∧
    (handleChange elemPassword 3 "https://example.com/").value = some none := by
  refine ⟨by decide, by decide, ?_, ?_⟩
  · exact (password_input_value_null elemPassword 3 "https://example.com/" (by decide)).1
  · exact (password_input_value_null elemPassword 3 "https://example.com/" (by decide)).2

/-- C10: for every non-password input or change event whose field
value is the empty string, the record's `value` is null — exactly
what a password field would produce. -/
theorem empty_value_recorded_null (e : Element) (ts : Nat) (url : String)
    (hp : e.typ ≠ "password") (hv : e.value = "") :
    (handleInput e ts url).value = some none ∧
    (handleChange e ts url).value = some none ∧
    getInputValue e = getInputValue elemPassword := by
  simp [handleInput, handleChange, createLogEntry, getInputValue, hp, hv, elemPassword]

/-- Witness for C10 at an empty text input. -/
theorem empty_value_recorded_null_witness :
    elemEmptyText.typ ≠ "password" ∧ elemEmptyText.value = "" ∧
    (handleInput elemEmptyText 4 "https://example.com/").value = some none :=
  ⟨by decide, by decide,
    (empty_value_recorded_null elemEmptyText 4 "https://example.com/"
      (by decide) (by decide)).1⟩

/-- C7 counterexample: a concrete click record and a concrete submit
record both carry a `value` key (holding null), so `value` is not
present only for input/change events. -/
theorem click_submit_carry_value_entry :
    (handleClick elemBtn 5 "https://example.com/").value = some none ∧
    (handleSubmit simpleForm 6 "https://example.com/").value = some none :=
  ⟨rfl, rfl⟩

/-- C7 amended: every interaction record carries a `value` key; for
click and submit it always holds null, and only input/change can
carry a non-null value (the masked field value). -/
theorem value_entry_always_present (e : Element) (f : Form) (ts : Nat) (url : String) :
    (handleClick e ts url).value = some none ∧
    (handleSubmit f ts url).value = some none ∧
    (handleInput e ts url).value = some (getInputValue e) ∧
    (handleChange e ts url).value = some (getInputValue e) := by
  simp [handleClick, handleSubmit, handleInput, handleChange, createLogEntry]

/-- C8: whatever the channel environment does, `sendEvent` returns
normally (both throwing calls sit in try/catch); and when the runtime
message channel throws while the page buffer is available, the record
still goes out on the console line with the fixed marker and is
pushed onto the polled buffer. -/
theorem sendEvent_survives_runtime_failure (entry : LogEntry) (buf : List LogEntry) :
    (∀ rt bt : Bool, ∃ r, sendEvent entry rt bt buf = Except.ok r) ∧
    sendEvent entry true false buf = Except.ok
      { runtimeSent := none
        consoleEvents := [(WEB_LOGGER_EVENT_MARKER, entry)]
        buffer := buf ++ [entry] } := by
  refine ⟨fun rt bt => ⟨_, rfl⟩, ?_⟩
  simp [sendEvent]

/-- C1 (failing input): in a form where a text field and a password
field share the name "user", `getFormValues` stores the raw password
"hunter2" under "user" and the redaction marker appears nowhere —
the submit record exposes the secret. -/
theorem getFormValues_leaks_shared_name_password :
    getFormValues leakyForm = [("user", "hunter2")] ∧
    ("user", REDACTED) ∉ getFormValues leakyForm ∧
    (handleSubmit leakyForm 7 "https://example.com/login").formValues
      = some [("user", "hunter2")] := by
  refine ⟨rfl, by decide, rfl⟩

/-- Folding `interaction` runtime messages onto a buffer appends
their payloads in arrival order. -/
theorem foldl_handleRuntimeMessage (es : List LogEntry) (b : List LogEntry) :
    es.foldl (fun acc e => handleRuntimeMessage "interaction" e acc) b = b ++ es := by
  induction es generalizing b with
  | nil => simp
  | cons e es ih =>
    rw [List.foldl_cons]
    have hstep : handleRuntimeMessage "interaction" e b = b ++ [e] := by
      simp [handleRuntimeMessage]
    rw [hstep, ih (b ++ [e])]
    simp

/-- C9: starting from a cleared buffer, the events accumulated by the
runtime-message listener are exactly the pushed interactions in
arrival order; a `getEvents` request (on either the external-message
or the port channel) leaves that buffer unchanged, while
`getAndClearEvents` responds with exactly those events and leaves the
buffer empty. -/
theorem relay_buffer_semantics (es : List LogEntry) :
    (es.foldl (fun acc e => handleRuntimeMessage "interaction" e acc) [] = es) ∧
    (handleExternalMessage "getEvents" es
      = (some { events := some es, success := none }, es)) ∧
    (handlePortMessage "getEvents" es
      = (some { events := some es, success := none }, es)) ∧
    (handleExternalMessage "getAndClearEvents" es
      = (some { events := some es, success := none }, [])) ∧
    (handlePortMessage "getAndClearEvents" es
      = (some { events := some es, success := none }, [])) := by
  refine ⟨?_, rfl, rfl, rfl, rfl⟩
  simpa using foldl_handleRuntimeMessage es []

/-- The first `n` characters of a string have length `min n` the
string's length. -/
theorem substringTo_length (s : String) (n : Nat) :
    (substringTo s n).length = min n s.length := by
  show (s.data.take n).length = min n s.data.length
  exact List.length_take n s.data

/-- C4: text of exactly the maximum length comes back unchanged with
no marker; longer text is cut to exactly the maximum number of
characters and gets the "..." marker appended. -/
theorem getInnerText_truncation (e : Element) :
    (e.innerText.length = MAX_INNER_TEXT_LENGTH → getInnerText e = e.innerText) ∧
    (e.innerText.length > MAX_INNER_TEXT_LENGTH →
      getInnerText e = substringTo e.innerText MAX_INNER_TEXT_LENGTH ++ "..." ∧
      (substringTo e.innerText MAX_INNER_TEXT_LENGTH).length = MAX_INNER_TEXT_LENGTH) := by
  constructor
  · intro h
    simp [getInnerText, h]
  · intro h
    refine ⟨by simp [getInnerText, h], ?_⟩
    rw [substringTo_length]
    omega

/-- Witness for C4 at 100- and 101-character texts. -/
theorem getInnerText_truncation_witness :
    (exactText.length = MAX_INNER_TEXT_LENGTH ∧ getInnerText elemExactText = exactText) ∧
    (longText.length > MAX_INNER_TEXT_LENGTH ∧
      getInnerText elemLongText = substringTo longText MAX_INNER_TEXT_LENGTH ++ "...") :=
  ⟨⟨by decide, (getInnerText_truncation elemExactText).1 (by decide)⟩,
   ⟨by decide, ((getInnerText_truncation elemLongText).2 (by decide)).1⟩⟩

/-- A timeline with no entry of key `k` reports `hasKey` false. -/
theorem hasKey_eq_false_of_countKey_zero (t : List LogEntry)
    (k : Nat × Option String × String) (h : countKey k t = 0) :
    hasKey t k = false := by
  simp only [countKey, List.countP_eq_zero] at h
  simp only [hasKey, List.any_eq_false]
  intro x hx
  simpa using h x hx

/-- Appending an entry makes its own key present. -/
theorem hasKey_append_self (t : List LogEntry) (e : LogEntry) :
    hasKey (t ++ [e]) (contentKey e) = true := by
  simp [hasKey]

/-- Once the key is present, further appends of entries with that key
are all no-ops. -/
theorem foldl_timelineAppend_of_hasKey (es : List LogEntry) (t : List LogEntry)
    (k : Nat × Option String × String)
    (hk : ∀ e ∈ es, contentKey e = k) (h : hasKey t k = true) :
    es.foldl timelineAppend t = t := by
  induction es with
  | nil => rfl
  | cons e es ih =>
    have he : contentKey e = k := hk e (List.mem_cons_self e es)
    have hstep : timelineAppend t e = t := by
      simp [timelineAppend, he, h]
    rw [List.foldl_cons, hstep]
    exact ih (fun x hx => hk x (List.mem_cons_of_mem e hx))

/-- C2: delivering any non-empty batch of interaction events that all
share one content key (timestamp, selector, eventKind) — one event
per delivery channel — into a timeline not yet holding that key
leaves exactly one entry with that key, however many channels
delivered it. -/
theorem timeline_dedup (t : List LogEntry) (es : List LogEntry)
    (k : Nat × Option String × String)
    (hk : ∀ e ∈ es, contentKey e = k) (hne : es ≠ [])
    (h0 : countKey k t = 0) :
    countKey k (es.foldl timelineAppend t) = 1 := by
  match es, hne with
  | e :: rest, _ =>
    have he : contentKey e = k := hk e (List.mem_cons_self e rest)
    have hfalse : hasKey t (contentKey e) = false := by
      rw [he]; exact hasKey_eq_false_of_countKey_zero t k h0
    have hstep : timelineAppend t e = t ++ [e] := by
      simp [timelineAppend, hfalse]
    rw [List.foldl_cons, hstep,
      foldl_timelineAppend_of_hasKey rest (t ++ [e]) k
        (fun x hx => hk x (List.mem_cons_of_mem e hx))
        (he ▸ hasKey_append_self t e)]
    simp only [countKey, List.countP_append] at h0 ⊢
    simp [h0, List.countP_cons, he]

/-- Witness for C2: the same click record delivered by two channels
leaves exactly one timeline entry with its key. -/
theorem timeline_dedup_witness :
    countKey (5, some "#go", "click")
      ([entryClickA, entryClickB].foldl timelineAppend []) = 1 :=
  timeline_dedup [] [entryClickA, entryClickB] (5, some "#go", "click")
    (by decide) (by decide) (by decide)

end WebLogger
